import Mathlib

/-
Verification development for the fps_fuel client.

The embedding is a shallow translation of the gameplay logic into Lean over ℚ:
  - NetworkManager (src/NetworkManager.js): hit processing, respawn, the
    move/shoot/hit wire messages and the guarded send operations.
  - Player (src/Player.js): the per-tick kinematics update and the hit-scan
    shoot resolution.
  - Part003 (src/unnamed/part_003): the extended Player variant with
    crouch/slide logic and the circular world boundary.

JavaScript numbers are modelled as rationals.  Math.sqrt (used by the source
through THREE.Vector3.length/normalize and directly for speed and distance
checks) is an irrational-valued operation, so every embedded function that
needs it takes an explicit parameter sq : ℚ → ℚ standing for Math.sqrt;
theorems that depend on a square root constrain sq to be exact at the
arguments actually used.
-/

set_option maxHeartbeats 1000000

/-- JavaScript Number(b) applied to a boolean, as used for key states in
Player.update. -/
def b2q (b : Bool) : ℚ := if b then 1 else 0

/-- THREE.Vector3.normalize specialised to a vector (x, 0, z) as used by the
source (input direction, camera forward with y zeroed, camera side vector):
the vector is divided by its length unless the length is zero, in which case
it is divided by 1 and therefore returned unchanged.  sq stands for
Math.sqrt. -/
def normalize2 (sq : ℚ → ℚ) (x z : ℚ) : ℚ × ℚ :=
  let L := sq (x * x + z * z)
  if L = 0 then (x, z) else (x / L, z / L)

namespace NetworkManager

/-- The local actor state owned by NetworkManager: its health field together
with the player camera position/rotation and player velocity that
NetworkManager.respawn and NetworkManager.sendState read and write
(src/NetworkManager.js). -/
structure NetState where
  health : ℚ
  posX : ℚ
  posY : ℚ
  posZ : ℚ
  rotY : ℚ
  velX : ℚ
  velY : ℚ
  velZ : ℚ
  deriving DecidableEq

/-- NetworkManager.respawn (src/NetworkManager.js lines 135-141): health is
reset to 100, the camera is teleported to (random()*20-10, 1.7,
random()*20-10) and the velocity is zeroed.  The two Math.random() draws are
passed in as r1 and r2. -/
def respawn (r1 r2 : ℚ) (s : NetState) : NetState :=
  { s with
    health := 100
    posX := r1 * 20 - 10
    posY := 17 / 10
    posZ := r2 * 20 - 10
    velX := 0
    velY := 0
    velZ := 0 }

/-- The hit branch of NetworkManager.onReceiveData (src/NetworkManager.js
lines 117-125): the damage is subtracted from health and, if the result is
less than or equal to 0, the respawn sequence runs. -/
def onHit (damage r1 r2 : ℚ) (s : NetState) : NetState :=
  let s1 : NetState := { s with health := s.health - damage }
  if s1.health ≤ 0 then respawn r1 r2 s1 else s1

/-- Processing of a sequence of incoming hit messages, each carrying a damage
value and the Math.random() draws a potential respawn would consume. -/
def runHits : List (ℚ × ℚ × ℚ) → NetState → NetState
  | [], s => s
  | (d, r1, r2) :: rest, s => runHits rest (onHit d r1 r2 s)

/-- The payload of a move message as produced by NetworkManager.sendState:
camera position, camera yaw and current health. -/
structure MovePayload where
  posX : ℚ
  posY : ℚ
  posZ : ℚ
  rotY : ℚ
  health : ℚ
  deriving DecidableEq

/-- The remote actor state kept by NetworkManager: the remote player mesh
position and yaw written by the move branch of onReceiveData. -/
structure RemoteState where
  posX : ℚ
  posY : ℚ
  posZ : ℚ
  rotY : ℚ
  deriving DecidableEq

/-- The move branch of NetworkManager.onReceiveData (src/NetworkManager.js
lines 106-111): the remote player mesh is placed at (pos.x, pos.y - 0.8,
pos.z) and its yaw is set to rot.y; the previous remote state is overwritten
wholesale. -/
def applyMove (p : MovePayload) (_s : RemoteState) : RemoteState :=
  { posX := p.posX
    posY := p.posY - 8 / 10
    posZ := p.posZ
    rotY := p.rotY }

/-- The wire messages of the protocol (move / shoot / hit). -/
inductive Msg where
  | move (posX posY posZ rotY health : ℚ)
  | shoot (posX posY posZ dirX dirY dirZ : ℚ)
  | hit (damage : ℚ)
  deriving DecidableEq

/-- The connection as seen by the send guards: none models this.conn being
null, some b models a connection whose open flag is b. -/
def connOpen : Option Bool → Bool
  | none => false
  | some b => b

/-- NetworkManager.sendState (src/NetworkManager.js lines 78-94): if the
connection is absent or not open nothing happens, otherwise a move snapshot
built from the current state is transmitted.  The function returns the
transmitted message (if any) together with the unchanged local state. -/
def sendState (conn : Option Bool) (s : NetState) : Option Msg × NetState :=
  if connOpen conn then
    (some (Msg.move s.posX s.posY s.posZ s.rotY s.health), s)
  else
    (none, s)

/-- NetworkManager.sendShoot (src/NetworkManager.js lines 96-99): guarded
exactly like sendState; transmits the ray origin and direction. -/
def sendShoot (conn : Option Bool) (px py pz dx dy dz : ℚ) (s : NetState) :
    Option Msg × NetState :=
  if connOpen conn then (some (Msg.shoot px py pz dx dy dz), s) else (none, s)

/-- NetworkManager.sendHit (src/NetworkManager.js lines 101-104): guarded
exactly like sendState; transmits a hit message with damage 20. -/
def sendHit (conn : Option Bool) (s : NetState) : Option Msg × NetState :=
  if connOpen conn then (some (Msg.hit 20), s) else (none, s)

/-- The local actor state at session start: health 100, standing eye height,
at rest at the origin. -/
def initState : NetState :=
  { health := 100, posX := 0, posY := 17 / 10, posZ := 0, rotY := 0,
    velX := 0, velY := 0, velZ := 0 }

end NetworkManager

namespace Player

/-- The key states read by Player.update (src/Player.js). -/
structure Keys where
  forward : Bool
  backward : Bool
  left : Bool
  right : Bool
  jump : Bool
  deriving DecidableEq

/-- The mutable Player state touched by Player.update (src/Player.js):
camera position, velocity, the grounded flag, the pointer-lock flag of the
controls and the gun visibility. -/
structure PState where
  posX : ℚ
  posY : ℚ
  posZ : ℚ
  velX : ℚ
  velY : ℚ
  velZ : ℚ
  onGround : Bool
  isLocked : Bool
  gunVisible : Bool
  keys : Keys
  deriving DecidableEq

/-- Player.update (src/Player.js lines 108-159), one tick with elapsed time
delta.  If the pointer controls are not locked the update only hides the gun
and returns.  Otherwise gravity, the input direction, friction (factor
1 - 8*delta, applied unconditionally), camera-relative acceleration (120 on
the ground, 30 airborne), the jump impulse (12) and semi-implicit Euler
integration with the floor clamp at eye height 1.7 are applied in source
order.  The camera world direction with its y component zeroed is passed in
as (wx, wz); the source renormalizes it and derives the side vector as
up x camDir = (camDir.z, 0, -camDir.x), renormalized. -/
def update (sq : ℚ → ℚ) (wx wz : ℚ) (delta : ℚ) (s : PState) : PState :=
  if s.isLocked = false then { s with gunVisible := false } else
  let vy := s.velY - 32 * delta
  let dz := b2q s.keys.forward - b2q s.keys.backward
  let dx := b2q s.keys.right - b2q s.keys.left
  let nd := normalize2 sq dx dz
  let fvx := s.velX * (1 - 8 * delta)
  let fvz := s.velZ * (1 - 8 * delta)
  let av :=
    if nd.1 ≠ 0 ∨ nd.2 ≠ 0 then
      let cam := normalize2 sq wx wz
      let side := normalize2 sq cam.2 (-cam.1)
      let accel : ℚ := if s.onGround then 120 else 30
      (fvx + cam.1 * (nd.2 * accel * delta) + side.1 * (-nd.1 * accel * delta),
       fvz + cam.2 * (nd.2 * accel * delta) + side.2 * (-nd.1 * accel * delta))
    else (fvx, fvz)
  let vy2 := if s.keys.jump && s.onGround then (12 : ℚ) else vy
  let nx := s.posX + av.1 * delta
  let ny := s.posY + vy2 * delta
  let nz := s.posZ + av.2 * delta
  if ny < 17 / 10 then
    { s with posX := nx, posY := 17 / 10, posZ := nz,
             velX := av.1, velY := 0, velZ := av.2,
             onGround := true, gunVisible := true }
  else
    { s with posX := nx, posY := ny, posZ := nz,
             velX := av.1, velY := vy2, velZ := av.2,
             onGround := false, gunVisible := true }

/-- Iterated ticks of Player.update with a fixed delta, camera direction and
square-root function. -/
def updateIter (sq : ℚ → ℚ) (wx wz delta : ℚ) : ℕ → PState → PState
  | 0, s => s
  | n + 1, s => updateIter sq wx wz delta n (update sq wx wz delta s)

/-- A candidate ray intersection as classified by the loop in Player.shoot:
an object with userData.isTarget, the remote player mesh, or anything else in
the scene (ground, grid, obstacles, tracer lines, ...). -/
inductive SceneObject where
  | target (idx : ℕ)
  | remoteMesh
  | other
  deriving DecidableEq

/-- The per-target state touched by Player.hitTarget: its health and its
vertical position (1 while active, -5 while sunk). -/
structure TargetState where
  health : ℚ
  posY : ℚ
  deriving DecidableEq

/-- Player.hitTarget (src/Player.js lines 190-202): 20 damage is subtracted
from the target health; if the result is less than or equal to 0 the target
sinks to y = -5.  (The delayed reset of health to 100 after 3 seconds runs in
a timer outside the fire event and is not part of this per-event function.) -/
def hitTarget (t : TargetState) : TargetState :=
  let h := t.health - 20
  if h ≤ 0 then { health := h, posY := -5 } else { t with health := h }

/-- The object the loop in Player.shoot settles on. -/
inductive HitOutcome where
  | tgt (idx : ℕ)
  | remote
  deriving DecidableEq

/-- The loop of Player.shoot (src/Player.js lines 175-188) over the
intersections returned by Raycaster.intersectObjects, which are sorted by
distance ascending: the loop breaks at the first intersection whose object is
a Target or the remote player mesh; any other object is simply skipped and
the loop continues with the next intersection. -/
def resolveHits : List SceneObject → Option HitOutcome
  | [] => none
  | SceneObject.target i :: _ => some (HitOutcome.tgt i)
  | SceneObject.remoteMesh :: _ => some HitOutcome.remote
  | SceneObject.other :: rest => resolveHits rest

/-- The combat effect of one Player.shoot fire event (src/Player.js lines
161-188) on the target states, given the distance-sorted candidate
intersections: the first Target found gets hitTarget applied (once, then the
loop breaks), the remote mesh triggers sendHit (returned as the boolean),
anything else leaves every target untouched. -/
def shoot (cands : List SceneObject) (tgts : ℕ → TargetState) :
    (ℕ → TargetState) × Bool :=
  match resolveHits cands with
  | some (HitOutcome.tgt i) =>
      (fun j => if j = i then hitTarget (tgts i) else tgts j, false)
  | some HitOutcome.remote => (tgts, true)
  | none => (tgts, false)

/-- All targets at full health and active, as created by addPracticeTargets
(src/main.js lines 204-213). -/
def tgts100 : ℕ → TargetState := fun _ => { health := 100, posY := 1 }

end Player

namespace Part003

/-- The key states read by the Player.update variant of
src/unnamed/part_003, including the shift (crouch) key. -/
structure KKeys where
  forward : Bool
  backward : Bool
  left : Bool
  right : Bool
  jump : Bool
  shift : Bool
  deriving DecidableEq

/-- The mutable Player state touched by the update of src/unnamed/part_003:
camera position, velocity, the grounded/crouching/sliding flags, the slide
timer and cached slide direction, the pointer-lock flag and the gun
visibility. -/
structure KState where
  posX : ℚ
  posY : ℚ
  posZ : ℚ
  velX : ℚ
  velY : ℚ
  velZ : ℚ
  onGround : Bool
  isCrouching : Bool
  isSliding : Bool
  slideTimer : ℚ
  slideDirX : ℚ
  slideDirZ : ℚ
  isLocked : Bool
  gunVisible : Bool
  keys : KKeys
  deriving DecidableEq

/-- The world-boundary clamp of src/unnamed/part_003 lines 203-209: if the
horizontal distance of the integrated next position from the origin exceeds
100, the point is projected back onto the circle of radius 100.  The source
computes angle = atan2(nz, nx) and then (cos(angle)*100, sin(angle)*100);
since cos(atan2 z x) = x / sqrt(x*x+z*z) and sin(atan2 z x) =
z / sqrt(x*x+z*z), this is the point scaled by 100 / dist.  sq stands for
Math.sqrt. -/
def clampBoundary (sq : ℚ → ℚ) (nx nz : ℚ) : ℚ × ℚ :=
  let dist := sq (nx * nx + nz * nz)
  if 100 < dist then (100 * (nx / dist), 100 * (nz / dist)) else (nx, nz)

/-- The eye target height of the tick (part_003 lines 132-153): 1.0 while the
shift key is held, 1.7 otherwise.  (The source initializes targetHeight to
the head height and sets it to the crouch height inside the shift branch;
both crouch sub-branches leave the shift branch with targetHeight = 1.0, so
the height depends only on the shift key.) -/
def targetHeightOf (s : KState) : ℚ := if s.keys.shift then 1 else 17 / 10

/-- The crouching and sliding logic block (part_003 lines 136-152): when
shift is held and the actor is not yet crouching, a slide is triggered if the
actor is grounded, the horizontal speed sq(velX^2+velZ^2) exceeds 12 and it
is not already sliding - sliding becomes true, the timer is armed with 0.5,
the slide direction caches the normalized horizontal velocity and an
immediate boost of 18 along it is added to the velocity; in every shift case
crouching becomes true.  Releasing shift clears both crouching and
sliding. -/
def crouchSlide (sq : ℚ → ℚ) (s : KState) : KState :=
  if s.keys.shift then
    if s.isCrouching then s else
      let hSpeed := sq (s.velX * s.velX + s.velZ * s.velZ)
      let t : KState :=
        if s.onGround = true ∧ 12 < hSpeed ∧ s.isSliding = false then
          let sd := normalize2 sq s.velX s.velZ
          { s with isSliding := true, slideTimer := 1 / 2,
                   slideDirX := sd.1, slideDirZ := sd.2,
                   velX := s.velX + sd.1 * 18, velZ := s.velZ + sd.2 * 18 }
        else s
      { t with isCrouching := true }
  else { s with isCrouching := false, isSliding := false }

/-- The sliding update block (part_003 lines 155-163): while sliding, the
timer is decremented by delta; at or below zero the slide ends, otherwise a
further 35*delta push along the cached slide direction is applied. -/
def slideTick (delta : ℚ) (s : KState) : KState :=
  if s.isSliding then
    let timer := s.slideTimer - delta
    if timer ≤ 0 then { s with slideTimer := timer, isSliding := false }
    else
      { s with slideTimer := timer,
               velX := s.velX + s.slideDirX * (35 * delta),
               velZ := s.velZ + s.slideDirZ * (35 * delta) }
  else s

/-- The friction block (part_003 lines 166-174): only while grounded, the
horizontal velocity is multiplied by (1 - fr*delta) with fr = 0.5 while
sliding and fr = 7 (this.friction) otherwise. -/
def frictionStep (delta : ℚ) (s : KState) : KState :=
  if s.onGround then
    let fr : ℚ := if s.isSliding then 1 / 2 else 7
    { s with velX := s.velX * (1 - fr * delta),
             velZ := s.velZ * (1 - fr * delta) }
  else s

/-- The acceleration block (part_003 lines 177-192): when the normalized
input direction is nonzero, the camera-relative acceleration (160 grounded /
100 airborne, times 0.4 while crouch-walking without sliding) is applied
along the renormalized camera forward (wx, wz) and the side vector
up x camDir = (camDir.z, 0, -camDir.x).  The input direction is computed
from the key states exactly as at the top of the source update; no earlier
block modifies the keys. -/
def accelStep (sq : ℚ → ℚ) (wx wz delta : ℚ) (s : KState) : KState :=
  let dz := b2q s.keys.forward - b2q s.keys.backward
  let dx := b2q s.keys.right - b2q s.keys.left
  let nd := normalize2 sq dx dz
  if nd.1 ≠ 0 ∨ nd.2 ≠ 0 then
    let cam := normalize2 sq wx wz
    let side := normalize2 sq cam.2 (-cam.1)
    let accel0 : ℚ := if s.onGround then 160 else 100
    let accel : ℚ :=
      if s.isCrouching && !s.isSliding then accel0 * (2 / 5) else accel0
    { s with
      velX := s.velX + cam.1 * (nd.2 * accel * delta) +
              side.1 * (-nd.1 * accel * delta),
      velZ := s.velZ + cam.2 * (nd.2 * accel * delta) +
              side.2 * (-nd.1 * accel * delta) }
  else s

/-- The jump block (part_003 lines 194-198): jump input while grounded sets
the vertical velocity to the jump impulse 13.5, forces Airborne and cancels
sliding (preserving the horizontal velocity). -/
def jumpStep (s : KState) : KState :=
  if s.keys.jump && s.onGround then
    { s with velY := 27 / 2, onGround := false, isSliding := false }
  else s

/-- Integration, world boundary and floor collision (part_003 lines
200-222): semi-implicit Euler integration of the position, the circular
boundary clamp, and the floor clamp at the tick's target height which zeroes
the vertical velocity and grounds the actor. -/
def integrateStep (sq : ℚ → ℚ) (delta targetHeight : ℚ) (s : KState) : KState :=
  let nx := s.posX + s.velX * delta
  let ny := s.posY + s.velY * delta
  let nz := s.posZ + s.velZ * delta
  let b := clampBoundary sq nx nz
  if ny < targetHeight then
    { s with posX := b.1, posY := targetHeight, posZ := b.2,
             velY := 0, onGround := true }
  else
    { s with posX := b.1, posY := ny, posZ := b.2, onGround := false }

/-- The Player.update of src/unnamed/part_003 (lines 116-223), one tick with
elapsed time delta: pointer-lock early return, then gravity (36) followed by
the crouch/slide, sliding-update, friction, acceleration, jump and
integration blocks in source order.  The camera world direction with its y
component zeroed is passed in as (wx, wz); sq stands for Math.sqrt. -/
def update (sq : ℚ → ℚ) (wx wz : ℚ) (delta : ℚ) (s : KState) : KState :=
  if s.isLocked = false then { s with gunVisible := false } else
  integrateStep sq delta (targetHeightOf s)
    (jumpStep (accelStep sq wx wz delta (frictionStep delta (slideTick delta
      (crouchSlide sq
        { s with velY := s.velY - 36 * delta, gunVisible := true })))))

end Part003

/-- All movement keys released (Player.js variant). -/
def Player.noKeys : Player.Keys :=
  { forward := false, backward := false, left := false, right := false,
    jump := false }

/-- A locked-in, grounded Player.js state coasting at horizontal velocity
(5, 0) with no input. -/
def Player.coastState : Player.PState :=
  { posX := 0, posY := 17 / 10, posZ := 0, velX := 5, velY := 0, velZ := 0,
    onGround := true, isLocked := true, gunVisible := true,
    keys := Player.noKeys }

/-- A Player.js state whose pointer controls are not locked. -/
def Player.unlockedState : Player.PState :=
  { posX := 3, posY := 9, posZ := -2, velX := 1, velY := 2, velZ := 3,
    onGround := false, isLocked := false, gunVisible := true,
    keys := { forward := true, backward := false, left := false,
              right := false, jump := true } }

/-- All keys released (part_003 variant). -/
def Part003.noKKeys : Part003.KKeys :=
  { forward := false, backward := false, left := false, right := false,
    jump := false, shift := false }

/-- Only the shift (crouch) key held (part_003 variant). -/
def Part003.shiftKeys : Part003.KKeys :=
  { forward := false, backward := false, left := false, right := false,
    jump := false, shift := true }

/-- Only the jump key held (part_003 variant). -/
def Part003.jumpKeys : Part003.KKeys :=
  { forward := false, backward := false, left := false, right := false,
    jump := true, shift := false }

/-- A part_003 state that satisfies every hypothesis of claim C7 as stated:
grounded, horizontal speed 15 (above the threshold 12), crouch input held,
not sliding - but the crouching flag is already set (shift has been held
since an earlier, slower tick). -/
def Part003.crouchedFast : Part003.KState :=
  { posX := 0, posY := 1, posZ := 0, velX := 15, velY := 0, velZ := 0,
    onGround := true, isCrouching := true, isSliding := false,
    slideTimer := 0, slideDirX := 0, slideDirZ := 0,
    isLocked := true, gunVisible := true, keys := Part003.shiftKeys }

/-- A part_003 state that is airborne with the jump key held. -/
def Part003.airborneJump : Part003.KState :=
  { posX := 0, posY := 10, posZ := 0, velX := 3, velY := 0, velZ := 0,
    onGround := false, isCrouching := false, isSliding := false,
    slideTimer := 0, slideDirX := 0, slideDirZ := 0,
    isLocked := true, gunVisible := true, keys := Part003.jumpKeys }

/-- A part_003 state about to trigger a slide: grounded, moving at (15, 0),
shift newly pressed (not yet crouching), not sliding. -/
def Part003.slideStart : Part003.KState :=
  { posX := 0, posY := 17 / 10, posZ := 0, velX := 15, velY := 0, velZ := 0,
    onGround := true, isCrouching := false, isSliding := false,
    slideTimer := 0, slideDirX := 0, slideDirZ := 0,
    isLocked := true, gunVisible := true, keys := Part003.shiftKeys }

/-- A part_003 state in the last tick of a slide: still crouched with shift
held, sliding with 1/20 s left on the timer, moving at (10, 0). -/
def Part003.slideEnding : Part003.KState :=
  { posX := 0, posY := 1, posZ := 0, velX := 10, velY := 0, velZ := 0,
    onGround := true, isCrouching := true, isSliding := true,
    slideTimer := 1 / 20, slideDirX := 1, slideDirZ := 0,
    isLocked := true, gunVisible := true, keys := Part003.shiftKeys }

/-- A part_003 state whose pointer controls are not locked. -/
def Part003.unlockedKState : Part003.KState :=
  { posX := 4, posY := 6, posZ := 1, velX := 2, velY := -1, velZ := 5,
    onGround := true, isCrouching := true, isSliding := true,
    slideTimer := 1 / 4, slideDirX := 1, slideDirZ := 0,
    isLocked := false, gunVisible := true, keys := Part003.shiftKeys }

/-- A stand-in for Math.sqrt that is exact at 225 (the squared speed of a
(15, 0) horizontal velocity); no other value is needed on the evaluated
paths. -/
def sq225 : ℚ → ℚ := fun q => if q = 225 then 15 else 0

/-- A stand-in for Math.sqrt that is exact at 250000 = 300^2 + 400^2. -/
def sq500 : ℚ → ℚ := fun q => if q = 250000 then 500 else 0

/-- A degenerate stand-in for Math.sqrt, usable whenever no branch of the
evaluated path depends on the square root's value. -/
def sqZero : ℚ → ℚ := fun _ => 0

/-- normalize2 maps the zero vector to itself whatever sq returns: both the
zero-length guard branch and the division branch give (0, 0). -/
theorem normalize2_zero (sq : ℚ → ℚ) : normalize2 sq 0 0 = (0, 0) := by
  dsimp only [normalize2]
  split_ifs <;> simp

/-- The crouch/slide block does not touch the vertical velocity, the
grounded flag, the keys or the position. -/
theorem Part003.crouchSlide_preserves (sq : ℚ → ℚ) (s : Part003.KState) :
    (Part003.crouchSlide sq s).velY = s.velY ∧
    (Part003.crouchSlide sq s).onGround = s.onGround ∧
    (Part003.crouchSlide sq s).keys = s.keys ∧
    (Part003.crouchSlide sq s).posX = s.posX ∧
    (Part003.crouchSlide sq s).posY = s.posY ∧
    (Part003.crouchSlide sq s).posZ = s.posZ := by
  dsimp only [Part003.crouchSlide]
  split_ifs <;> simp

/-- The sliding update does not touch the vertical velocity, the grounded
flag, the keys or the position. -/
theorem Part003.slideTick_preserves (delta : ℚ) (s : Part003.KState) :
    (Part003.slideTick delta s).velY = s.velY ∧
    (Part003.slideTick delta s).onGround = s.onGround ∧
    (Part003.slideTick delta s).keys = s.keys ∧
    (Part003.slideTick delta s).posX = s.posX ∧
    (Part003.slideTick delta s).posY = s.posY ∧
    (Part003.slideTick delta s).posZ = s.posZ := by
  dsimp only [Part003.slideTick]
  split_ifs <;> simp

/-- Friction does not touch the vertical velocity, the grounded flag, the
keys or the position. -/
theorem Part003.frictionStep_preserves (delta : ℚ) (s : Part003.KState) :
    (Part003.frictionStep delta s).velY = s.velY ∧
    (Part003.frictionStep delta s).onGround = s.onGround ∧
    (Part003.frictionStep delta s).keys = s.keys ∧
    (Part003.frictionStep delta s).posX = s.posX ∧
    (Part003.frictionStep delta s).posY = s.posY ∧
    (Part003.frictionStep delta s).posZ = s.posZ := by
  dsimp only [Part003.frictionStep]
  split_ifs <;> simp

/-- Acceleration does not touch the vertical velocity, the grounded flag,
the keys or the position. -/
theorem Part003.accelStep_preserves (sq : ℚ → ℚ) (wx wz delta : ℚ)
    (s : Part003.KState) :
    (Part003.accelStep sq wx wz delta s).velY = s.velY ∧
    (Part003.accelStep sq wx wz delta s).onGround = s.onGround ∧
    (Part003.accelStep sq wx wz delta s).keys = s.keys ∧
    (Part003.accelStep sq wx wz delta s).posX = s.posX ∧
    (Part003.accelStep sq wx wz delta s).posY = s.posY ∧
    (Part003.accelStep sq wx wz delta s).posZ = s.posZ := by
  dsimp only [Part003.accelStep]
  split_ifs <;> simp

/-- The jump block is the identity while airborne: the jump impulse requires
the grounded flag. -/
theorem Part003.jumpStep_of_airborne (s : Part003.KState)
    (h : s.onGround = false) : Part003.jumpStep s = s := by
  simp [Part003.jumpStep, h]

/-- The acceleration block is the identity when every movement key is
released: the normalized input direction is the zero vector. -/
theorem Part003.accelStep_zero_input (sq : ℚ → ℚ) (wx wz delta : ℚ)
    (s : Part003.KState)
    (hf : s.keys.forward = false) (hb : s.keys.backward = false)
    (hlf : s.keys.left = false) (hr : s.keys.right = false) :
    Part003.accelStep sq wx wz delta s = s := by
  simp only [Part003.accelStep, hf, hb, hlf, hr]
  norm_num [b2q, normalize2_zero]

/-- The jump block is the identity when the jump key is released. -/
theorem Part003.jumpStep_no_jump (s : Part003.KState)
    (hj : s.keys.jump = false) : Part003.jumpStep s = s := by
  simp [Part003.jumpStep, hj]

/-- The integration block does not touch the horizontal velocity or the
crouch/slide bookkeeping. -/
theorem Part003.integrateStep_keeps_slide (sq : ℚ → ℚ) (delta th : ℚ)
    (s : Part003.KState) :
    (Part003.integrateStep sq delta th s).velX = s.velX ∧
    (Part003.integrateStep sq delta th s).velZ = s.velZ ∧
    (Part003.integrateStep sq delta th s).isSliding = s.isSliding ∧
    (Part003.integrateStep sq delta th s).slideTimer = s.slideTimer ∧
    (Part003.integrateStep sq delta th s).isCrouching = s.isCrouching := by
  dsimp only [Part003.integrateStep]
  split_ifs <;> simp

/-- The integration block either zeroes the vertical velocity (floor clamp)
or leaves it unchanged. -/
theorem Part003.integrateStep_velY (sq : ℚ → ℚ) (delta th : ℚ)
    (s : Part003.KState) :
    (Part003.integrateStep sq delta th s).velY = 0 ∨
    (Part003.integrateStep sq delta th s).velY = s.velY := by
  dsimp only [Part003.integrateStep]
  split_ifs <;> simp

/-- One locked tick of Player.update with every key released multiplies each
horizontal velocity component by the friction factor (1 - 8*delta) and
preserves the keys and the lock flag. -/
theorem Player.update_zero_input (sq : ℚ → ℚ) (wx wz delta : ℚ)
    (s : Player.PState) (hl : s.isLocked = true)
    (hf : s.keys.forward = false) (hb : s.keys.backward = false)
    (hlf : s.keys.left = false) (hr : s.keys.right = false) :
    (Player.update sq wx wz delta s).velX = s.velX * (1 - 8 * delta) ∧
    (Player.update sq wx wz delta s).velZ = s.velZ * (1 - 8 * delta) ∧
    (Player.update sq wx wz delta s).keys = s.keys ∧
    (Player.update sq wx wz delta s).isLocked = s.isLocked := by
  simp only [Player.update, hl, hf, hb, hlf, hr]
  norm_num [b2q, normalize2_zero]
  split_ifs <;> simp

/-- Iterated locked ticks of Player.update with every key released decay
each horizontal velocity component geometrically by (1 - 8*delta)^n. -/
theorem Player.updateIter_zero_input (sq : ℚ → ℚ) (wx wz delta : ℚ) (n : ℕ)
    (s : Player.PState) (hl : s.isLocked = true)
    (hf : s.keys.forward = false) (hb : s.keys.backward = false)
    (hlf : s.keys.left = false) (hr : s.keys.right = false) :
    (Player.updateIter sq wx wz delta n s).velX =
      s.velX * (1 - 8 * delta) ^ n ∧
    (Player.updateIter sq wx wz delta n s).velZ =
      s.velZ * (1 - 8 * delta) ^ n := by
  induction n generalizing s with
  | zero => simp [Player.updateIter]
  | succ n ih =>
    obtain ⟨hx, hz, hk, hlk⟩ :=
      Player.update_zero_input sq wx wz delta s hl hf hb hlf hr
    have hl2 : (Player.update sq wx wz delta s).isLocked = true := by
      rw [hlk, hl]
    have hf2 : (Player.update sq wx wz delta s).keys.forward = false := by
      rw [hk]; exact hf
    have hb2 : (Player.update sq wx wz delta s).keys.backward = false := by
      rw [hk]; exact hb
    have hlf2 : (Player.update sq wx wz delta s).keys.left = false := by
      rw [hk]; exact hlf
    have hr2 : (Player.update sq wx wz delta s).keys.right = false := by
      rw [hk]; exact hr
    have hstep := ih (Player.update sq wx wz delta s) hl2 hf2 hb2 hlf2 hr2
    constructor
    · calc (Player.updateIter sq wx wz delta (n + 1) s).velX
          = (Player.updateIter sq wx wz delta n
              (Player.update sq wx wz delta s)).velX := rfl
        _ = (Player.update sq wx wz delta s).velX * (1 - 8 * delta) ^ n :=
            hstep.1
        _ = s.velX * (1 - 8 * delta) * (1 - 8 * delta) ^ n := by rw [hx]
        _ = s.velX * (1 - 8 * delta) ^ (n + 1) := by ring
    · calc (Player.updateIter sq wx wz delta (n + 1) s).velZ
          = (Player.updateIter sq wx wz delta n
              (Player.update sq wx wz delta s)).velZ := rfl
        _ = (Player.update sq wx wz delta s).velZ * (1 - 8 * delta) ^ n :=
            hstep.2
        _ = s.velZ * (1 - 8 * delta) * (1 - 8 * delta) ^ n := by rw [hz]
        _ = s.velZ * (1 - 8 * delta) ^ (n + 1) := by ring

/-- Claim C1 (counterexample): the receiver does not clamp health into
[0,100] for arbitrary damage values - a single Hit message with damage -20
received at full health leaves health at 120, outside [0,100].  The code
subtracts the damage and only checks for health less-or-equal 0. -/
theorem NetworkManager.health_negative_damage_escapes_range :
    (NetworkManager.runHits [(-20, 0, 0)] NetworkManager.initState).health = 120 ∧
    ¬ (NetworkManager.runHits [(-20, 0, 0)] NetworkManager.initState).health ≤ 100 := by
  norm_num [NetworkManager.runHits, NetworkManager.onHit,
    NetworkManager.respawn, NetworkManager.initState]

/-- Claim C1 (amended): for every incoming Hit message the receiver subtracts
the message's damage from its local health, and a result at or below 0
triggers the respawn reset to 100 (rather than a clamp at 0); consequently,
after any sequence of Hit messages with nonnegative damage values, health
starting in [0,100] always stays within [0,100]. -/
theorem NetworkManager.health_stays_in_range
    (l : List (ℚ × ℚ × ℚ)) (s : NetworkManager.NetState)
    (h0 : 0 ≤ s.health) (h1 : s.health ≤ 100)
    (hd : ∀ x ∈ l, 0 ≤ x.1) :
    0 ≤ (NetworkManager.runHits l s).health ∧
      (NetworkManager.runHits l s).health ≤ 100 := by
  induction l generalizing s with
  | nil => exact ⟨h0, h1⟩
  | cons a rest ih =>
    obtain ⟨d, r1, r2⟩ := a
    have hd0 : 0 ≤ d := hd (d, r1, r2) (List.mem_cons_self _ _)
    have hrest : ∀ x ∈ rest, 0 ≤ x.1 := fun x hx => hd x (List.mem_cons_of_mem _ hx)
    have hstep : 0 ≤ (NetworkManager.onHit d r1 r2 s).health ∧
        (NetworkManager.onHit d r1 r2 s).health ≤ 100 := by
      dsimp only [NetworkManager.onHit, NetworkManager.respawn]
      split_ifs with hle
      · exact ⟨by norm_num, by norm_num⟩
      · push_neg at hle
        refine ⟨le_of_lt hle, ?_⟩
        show s.health - d ≤ 100
        linarith
    simp only [NetworkManager.runHits]
    exact ih (NetworkManager.onHit d r1 r2 s) hstep.1 hstep.2 hrest

/-- Claim C1 (witness): the amended range invariant applied to a single
damage-20 hit from the initial full-health state. -/
theorem NetworkManager.health_stays_in_range_witness :
    0 ≤ (NetworkManager.runHits [(20, 0, 0)] NetworkManager.initState).health ∧
      (NetworkManager.runHits [(20, 0, 0)] NetworkManager.initState).health ≤ 100 :=
  NetworkManager.health_stays_in_range [(20, 0, 0)] NetworkManager.initState
    (by norm_num [NetworkManager.initState])
    (by norm_num [NetworkManager.initState]) (by norm_num)

/-- Claim C3: starting from health 100, five Hit messages of damage 20 leave
health at 20 after the fourth, the fifth drives it to exactly 0 which
triggers the respawn sequence: final health 100, position moved to the
randomized spawn point (r1*20-10, 1.7, r2*20-10) and velocity zeroed. -/
theorem NetworkManager.five_hits_respawn
    (s : NetworkManager.NetState) (r1 r2 : ℚ) (h : s.health = 100) :
    (NetworkManager.runHits
      [(20, r1, r2), (20, r1, r2), (20, r1, r2), (20, r1, r2)] s).health = 20 ∧
    (NetworkManager.runHits
      [(20, r1, r2), (20, r1, r2), (20, r1, r2), (20, r1, r2)] s).health - 20 = 0 ∧
    (NetworkManager.runHits
      [(20, r1, r2), (20, r1, r2), (20, r1, r2), (20, r1, r2), (20, r1, r2)]
      s).health = 100 ∧
    (NetworkManager.runHits
      [(20, r1, r2), (20, r1, r2), (20, r1, r2), (20, r1, r2), (20, r1, r2)]
      s).posX = r1 * 20 - 10 ∧
    (NetworkManager.runHits
      [(20, r1, r2), (20, r1, r2), (20, r1, r2), (20, r1, r2), (20, r1, r2)]
      s).posY = 17 / 10 ∧
    (NetworkManager.runHits
      [(20, r1, r2), (20, r1, r2), (20, r1, r2), (20, r1, r2), (20, r1, r2)]
      s).posZ = r2 * 20 - 10 ∧
    (NetworkManager.runHits
      [(20, r1, r2), (20, r1, r2), (20, r1, r2), (20, r1, r2), (20, r1, r2)]
      s).velX = 0 ∧
    (NetworkManager.runHits
      [(20, r1, r2), (20, r1, r2), (20, r1, r2), (20, r1, r2), (20, r1, r2)]
      s).velY = 0 ∧
    (NetworkManager.runHits
      [(20, r1, r2), (20, r1, r2), (20, r1, r2), (20, r1, r2), (20, r1, r2)]
      s).velZ = 0 := by
  norm_num [NetworkManager.runHits, NetworkManager.onHit,
    NetworkManager.respawn, h]

/-- Claim C3 (witness): the five-hit respawn scenario evaluated from the
initial state with random draws 0 and 1/2. -/
theorem NetworkManager.five_hits_respawn_witness :
    (NetworkManager.runHits
      [(20, 0, 1/2), (20, 0, 1/2), (20, 0, 1/2), (20, 0, 1/2)]
      NetworkManager.initState).health = 20 ∧
    (NetworkManager.runHits
      [(20, 0, 1/2), (20, 0, 1/2), (20, 0, 1/2), (20, 0, 1/2)]
      NetworkManager.initState).health - 20 = 0 ∧
    (NetworkManager.runHits
      [(20, 0, 1/2), (20, 0, 1/2), (20, 0, 1/2), (20, 0, 1/2), (20, 0, 1/2)]
      NetworkManager.initState).health = 100 ∧
    (NetworkManager.runHits
      [(20, 0, 1/2), (20, 0, 1/2), (20, 0, 1/2), (20, 0, 1/2), (20, 0, 1/2)]
      NetworkManager.initState).posX = 0 * 20 - 10 ∧
    (NetworkManager.runHits
      [(20, 0, 1/2), (20, 0, 1/2), (20, 0, 1/2), (20, 0, 1/2), (20, 0, 1/2)]
      NetworkManager.initState).posY = 17 / 10 ∧
    (NetworkManager.runHits
      [(20, 0, 1/2), (20, 0, 1/2), (20, 0, 1/2), (20, 0, 1/2), (20, 0, 1/2)]
      NetworkManager.initState).posZ = 1/2 * 20 - 10 ∧
    (NetworkManager.runHits
      [(20, 0, 1/2), (20, 0, 1/2), (20, 0, 1/2), (20, 0, 1/2), (20, 0, 1/2)]
      NetworkManager.initState).velX = 0 ∧
    (NetworkManager.runHits
      [(20, 0, 1/2), (20, 0, 1/2), (20, 0, 1/2), (20, 0, 1/2), (20, 0, 1/2)]
      NetworkManager.initState).velY = 0 ∧
    (NetworkManager.runHits
      [(20, 0, 1/2), (20, 0, 1/2), (20, 0, 1/2), (20, 0, 1/2), (20, 0, 1/2)]
      NetworkManager.initState).velZ = 0 :=
  NetworkManager.five_hits_respawn NetworkManager.initState 0 (1/2) rfl

/-- Claim C8: applying the same Move payload twice in succession leaves the
remote actor state (last-known position and yaw) identical to its value
after the first application - the move branch overwrites the state wholesale
without reading it. -/
theorem NetworkManager.applyMove_idempotent
    (p : NetworkManager.MovePayload) (s : NetworkManager.RemoteState) :
    NetworkManager.applyMove p (NetworkManager.applyMove p s) =
      NetworkManager.applyMove p s := rfl

/-- Claim C9: while the connection is absent or not open, each of the three
send operations (state snapshot, shoot, hit) transmits nothing and leaves
the local state unchanged. -/
theorem NetworkManager.send_noop_when_closed
    (conn : Option Bool) (s : NetworkManager.NetState)
    (px py pz dx dy dz : ℚ) (h : NetworkManager.connOpen conn = false) :
    NetworkManager.sendState conn s = (none, s) ∧
    NetworkManager.sendShoot conn px py pz dx dy dz s = (none, s) ∧
    NetworkManager.sendHit conn s = (none, s) := by
  simp [NetworkManager.sendState, NetworkManager.sendShoot,
    NetworkManager.sendHit, h]

/-- Claim C9 (witness): the silent no-op evaluated with an absent
connection. -/
theorem NetworkManager.send_noop_when_closed_witness :
    NetworkManager.sendState none NetworkManager.initState =
      (none, NetworkManager.initState) ∧
    NetworkManager.sendShoot none 0 0 0 0 0 0 NetworkManager.initState =
      (none, NetworkManager.initState) ∧
    NetworkManager.sendHit none NetworkManager.initState =
      (none, NetworkManager.initState) :=
  NetworkManager.send_noop_when_closed none NetworkManager.initState
    0 0 0 0 0 0 rfl

/-- Claim C2: the fire-event loop does scan the distance-sorted candidate
intersections and settles on the first Target or remote proxy it finds, but a
world obstacle lying in front of a target does NOT block the shot: the loop
body only breaks on Targets and the remote mesh and silently skips every
other object, so a shot fired at [obstacle at distance d1, Target behind it
at d2 greater than d1] still damages the target (health 100 -> 80) and hits
it exactly once. -/
theorem Player.shoot_through_obstacle :
    ((Player.shoot [Player.SceneObject.other, Player.SceneObject.target 0]
        Player.tgts100).1 0).health = 80 ∧
    ((Player.shoot [Player.SceneObject.other, Player.SceneObject.target 0]
        Player.tgts100).1 1).health = 100 ∧
    (Player.shoot [Player.SceneObject.other, Player.SceneObject.target 0]
        Player.tgts100).2 = false := by
  norm_num [Player.shoot, Player.resolveHits, Player.hitTarget, Player.tgts100]

/-- Claim C10: when the pointer controls are not locked, the per-tick update
of both Player variants returns before any physics: position, velocity and
the grounded flag (and, for the part_003 variant, the crouch/slide state)
keep their previous values; no gravity, friction or acceleration is applied
that tick. -/
theorem update_skip_when_pointer_unlocked
    (sq : ℚ → ℚ) (wx wz delta : ℚ) (s : Player.PState) (k : Part003.KState)
    (hs : s.isLocked = false) (hk : k.isLocked = false) :
    ((Player.update sq wx wz delta s).posX = s.posX ∧
     (Player.update sq wx wz delta s).posY = s.posY ∧
     (Player.update sq wx wz delta s).posZ = s.posZ ∧
     (Player.update sq wx wz delta s).velX = s.velX ∧
     (Player.update sq wx wz delta s).velY = s.velY ∧
     (Player.update sq wx wz delta s).velZ = s.velZ ∧
     (Player.update sq wx wz delta s).onGround = s.onGround) ∧
    ((Part003.update sq wx wz delta k).posX = k.posX ∧
     (Part003.update sq wx wz delta k).posY = k.posY ∧
     (Part003.update sq wx wz delta k).posZ = k.posZ ∧
     (Part003.update sq wx wz delta k).velX = k.velX ∧
     (Part003.update sq wx wz delta k).velY = k.velY ∧
     (Part003.update sq wx wz delta k).velZ = k.velZ ∧
     (Part003.update sq wx wz delta k).onGround = k.onGround ∧
     (Part003.update sq wx wz delta k).isCrouching = k.isCrouching ∧
     (Part003.update sq wx wz delta k).isSliding = k.isSliding ∧
     (Part003.update sq wx wz delta k).slideTimer = k.slideTimer) := by
  constructor
  · simp [Player.update, hs]
  · simp [Part003.update, hk]

/-- Claim C10 (witness): the unlocked early return evaluated on concrete
unlocked states of both Player variants. -/
theorem update_skip_when_pointer_unlocked_witness :
    ((Player.update sqZero 1 0 (1/60) Player.unlockedState).posX =
        Player.unlockedState.posX ∧
     (Player.update sqZero 1 0 (1/60) Player.unlockedState).posY =
        Player.unlockedState.posY ∧
     (Player.update sqZero 1 0 (1/60) Player.unlockedState).posZ =
        Player.unlockedState.posZ ∧
     (Player.update sqZero 1 0 (1/60) Player.unlockedState).velX =
        Player.unlockedState.velX ∧
     (Player.update sqZero 1 0 (1/60) Player.unlockedState).velY =
        Player.unlockedState.velY ∧
     (Player.update sqZero 1 0 (1/60) Player.unlockedState).velZ =
        Player.unlockedState.velZ ∧
     (Player.update sqZero 1 0 (1/60) Player.unlockedState).onGround =
        Player.unlockedState.onGround) ∧
    ((Part003.update sqZero 1 0 (1/60) Part003.unlockedKState).posX =
        Part003.unlockedKState.posX ∧
     (Part003.update sqZero 1 0 (1/60) Part003.unlockedKState).posY =
        Part003.unlockedKState.posY ∧
     (Part003.update sqZero 1 0 (1/60) Part003.unlockedKState).posZ =
        Part003.unlockedKState.posZ ∧
     (Part003.update sqZero 1 0 (1/60) Part003.unlockedKState).velX =
        Part003.unlockedKState.velX ∧
     (Part003.update sqZero 1 0 (1/60) Part003.unlockedKState).velY =
        Part003.unlockedKState.velY ∧
     (Part003.update sqZero 1 0 (1/60) Part003.unlockedKState).velZ =
        Part003.unlockedKState.velZ ∧
     (Part003.update sqZero 1 0 (1/60) Part003.unlockedKState).onGround =
        Part003.unlockedKState.onGround ∧
     (Part003.update sqZero 1 0 (1/60) Part003.unlockedKState).isCrouching =
        Part003.unlockedKState.isCrouching ∧
     (Part003.update sqZero 1 0 (1/60) Part003.unlockedKState).isSliding =
        Part003.unlockedKState.isSliding ∧
     (Part003.update sqZero 1 0 (1/60) Part003.unlockedKState).slideTimer =
        Part003.unlockedKState.slideTimer) :=
  update_skip_when_pointer_unlocked sqZero 1 0 (1/60)
    Player.unlockedState Part003.unlockedKState rfl rfl

/-- Claim C5: whenever the computed horizontal distance of the integrated
next position from the origin exceeds the radius 100, the world-boundary
clamp of part_003 projects the point back onto the circle: the clamped
point's squared distance from the origin is exactly 100^2 and the point is a
positive scalar multiple of the original one, so the angular direction is
preserved.  The hypotheses state that Math.sqrt is exact at the squared
distance. -/
theorem Part003.boundary_clamp_exact (sq : ℚ → ℚ) (nx nz : ℚ)
    (h0 : 0 ≤ sq (nx * nx + nz * nz))
    (hsq : sq (nx * nx + nz * nz) * sq (nx * nx + nz * nz) = nx * nx + nz * nz)
    (hgt : 100 < sq (nx * nx + nz * nz)) :
    (Part003.clampBoundary sq nx nz).1 * (Part003.clampBoundary sq nx nz).1 +
      (Part003.clampBoundary sq nx nz).2 * (Part003.clampBoundary sq nx nz).2 =
      100 * 100 ∧
    ∃ c : ℚ, 0 < c ∧ (Part003.clampBoundary sq nx nz).1 = c * nx ∧
      (Part003.clampBoundary sq nx nz).2 = c * nz := by
  have hdpos : 0 < sq (nx * nx + nz * nz) := lt_trans (by norm_num) hgt
  have hdne : sq (nx * nx + nz * nz) ≠ 0 := ne_of_gt hdpos
  dsimp only [Part003.clampBoundary]
  rw [if_pos hgt]
  constructor
  · field_simp
    linear_combination (-10000 : ℚ) * hsq
  · refine ⟨100 / sq (nx * nx + nz * nz), div_pos (by norm_num) hdpos, ?_, ?_⟩
    · ring
    · ring

/-- Claim C5 (witness): the boundary clamp evaluated at the out-of-bounds
point (300, 400), distance 500: the result (60, 80) lies exactly on the
radius-100 circle along the same direction. -/
theorem Part003.boundary_clamp_exact_witness :
    (Part003.clampBoundary sq500 300 400).1 * (Part003.clampBoundary sq500 300 400).1 +
      (Part003.clampBoundary sq500 300 400).2 * (Part003.clampBoundary sq500 300 400).2 =
      100 * 100 ∧
    ∃ c : ℚ, 0 < c ∧ (Part003.clampBoundary sq500 300 400).1 = c * 300 ∧
      (Part003.clampBoundary sq500 300 400).2 = c * 400 :=
  Part003.boundary_clamp_exact sq500 300 400
    (by norm_num [sq500]) (by norm_num [sq500]) (by norm_num [sq500])

/-- Claim C6 (counterexample): an airborne part_003 state with the jump key
held (and a wall arbitrarily close - the code probes no walls at all)
receives no jump impulse of any kind: after the tick the vertical velocity is
the pure gravity result -36 * 0.1 = -3.6 (negative, hence not jumpForce
times any positive fraction) and the horizontal velocity is unchanged, so no
component along any wall normal is gained. -/
theorem Part003.airborne_jump_gets_no_impulse :
    (Part003.update sqZero 1 0 (1/10) Part003.airborneJump).velY = -18/5 ∧
    (Part003.update sqZero 1 0 (1/10) Part003.airborneJump).velY < 0 ∧
    (Part003.update sqZero 1 0 (1/10) Part003.airborneJump).velX = 3 ∧
    (Part003.update sqZero 1 0 (1/10) Part003.airborneJump).velZ = 0 := by
  norm_num [Part003.update, Part003.crouchSlide, Part003.slideTick,
    Part003.frictionStep, Part003.accelStep, Part003.jumpStep,
    Part003.integrateStep, Part003.targetHeightOf, Part003.airborneJump,
    Part003.jumpKeys, sqZero, normalize2, b2q, Part003.clampBoundary]

/-- Claim C6 (amended): the code implements no wall-jump.  While Airborne,
jump input is ignored (the jump branch requires Grounded), there is no wall
probe or eligibility flag, and the vertical velocity after the tick is
either the pure gravity value velY - 36*delta or 0 from the floor clamp -
never a jump impulse. -/
theorem Part003.no_wall_jump_while_airborne
    (sq : ℚ → ℚ) (wx wz delta : ℚ) (s : Part003.KState)
    (hl : s.isLocked = true) (hg : s.onGround = false)
    (hj : s.keys.jump = true) :
    (Part003.update sq wx wz delta s).velY = s.velY - 36 * delta ∨
    (Part003.update sq wx wz delta s).velY = 0 := by
  unfold Part003.update
  rw [if_neg (by simp [hl])]
  set s1 : Part003.KState :=
    { s with velY := s.velY - 36 * delta, gunVisible := true } with hs1
  have hs1y : s1.velY = s.velY - 36 * delta := rfl
  have hs1g : s1.onGround = s.onGround := rfl
  obtain ⟨h1y, h1g, -, -, -, -⟩ := Part003.crouchSlide_preserves sq s1
  set c1 := Part003.crouchSlide sq s1
  obtain ⟨h2y, h2g, -, -, -, -⟩ := Part003.slideTick_preserves delta c1
  set c2 := Part003.slideTick delta c1
  obtain ⟨h3y, h3g, -, -, -, -⟩ := Part003.frictionStep_preserves delta c2
  set c3 := Part003.frictionStep delta c2
  obtain ⟨h4y, h4g, -, -, -, -⟩ := Part003.accelStep_preserves sq wx wz delta c3
  set c4 := Part003.accelStep sq wx wz delta c3
  have hog : c4.onGround = false := by
    rw [h4g, h3g, h2g, h1g, hs1g, hg]
  rw [Part003.jumpStep_of_airborne c4 hog]
  have hvy : c4.velY = s.velY - 36 * delta := by
    rw [h4y, h3y, h2y, h1y, hs1y]
  rcases Part003.integrateStep_velY sq delta (Part003.targetHeightOf s) c4 with
    h | h
  · right; exact h
  · left; rw [h, hvy]

/-- Claim C6 (witness): the amended no-wall-jump fact evaluated on the
concrete airborne jumping state. -/
theorem Part003.no_wall_jump_while_airborne_witness :
    (Part003.update sqZero 1 0 (1/10) Part003.airborneJump).velY =
      Part003.airborneJump.velY - 36 * (1/10) ∨
    (Part003.update sqZero 1 0 (1/10) Part003.airborneJump).velY = 0 :=
  Part003.no_wall_jump_while_airborne sqZero 1 0 (1/10) Part003.airborneJump
    rfl rfl rfl

/-- Claim C4 (counterexample): at a large tick delta the friction factor
(1 - 8*delta) is negative and the horizontal velocity reverses sign instead
of decaying - with zero input, Grounded = true and delta = 1/4 the factor is
-1, so a velocity of (5, 0) becomes (-5, 0): the sign flips and the
horizontal speed does not decrease. -/
theorem Player.friction_large_delta_reverses_sign :
    Player.coastState.velX = 5 ∧
    (Player.update sqZero 1 0 (1/4) Player.coastState).velX = -5 ∧
    (Player.update sqZero 1 0 (1/4) Player.coastState).velX < 0 ∧
    ¬ ((Player.update sqZero 1 0 (1/4) Player.coastState).velX ^ 2 +
        (Player.update sqZero 1 0 (1/4) Player.coastState).velZ ^ 2 <
        Player.coastState.velX ^ 2 + Player.coastState.velZ ^ 2) := by
  norm_num [Player.update, Player.coastState, Player.noKeys, b2q,
    normalize2, sqZero]

/-- Claim C4 (amended): provided the tick delta satisfies
8 * delta < 1 (delta below 1/8 s), a locked tick with zero input and
Grounded = true strictly decreases the horizontal speed (stated on squared
speeds, equivalent for nonnegative speeds) whenever it is nonzero, never
reverses the sign of either horizontal component, and repeated such ticks
drive the horizontal speed below any positive epsilon.  (Friction in
Player.js is applied unconditionally, so the Grounded hypothesis is
inessential.) -/
theorem Player.friction_decay (sq : ℚ → ℚ) (wx wz delta : ℚ)
    (s : Player.PState) (hl : s.isLocked = true) (hg : s.onGround = true)
    (hf : s.keys.forward = false) (hb : s.keys.backward = false)
    (hlf : s.keys.left = false) (hr : s.keys.right = false)
    (hj : s.keys.jump = false)
    (hd0 : 0 < delta) (hd1 : 8 * delta < 1) :
    ((s.velX ≠ 0 ∨ s.velZ ≠ 0) →
      (Player.update sq wx wz delta s).velX ^ 2 +
        (Player.update sq wx wz delta s).velZ ^ 2 <
        s.velX ^ 2 + s.velZ ^ 2) ∧
    (0 < s.velX → 0 < (Player.update sq wx wz delta s).velX) ∧
    (s.velX < 0 → (Player.update sq wx wz delta s).velX < 0) ∧
    (0 < s.velZ → 0 < (Player.update sq wx wz delta s).velZ) ∧
    (s.velZ < 0 → (Player.update sq wx wz delta s).velZ < 0) ∧
    (∀ eps : ℚ, 0 < eps → ∃ n : ℕ,
      (Player.updateIter sq wx wz delta n s).velX ^ 2 +
        (Player.updateIter sq wx wz delta n s).velZ ^ 2 < eps ^ 2) := by
  obtain ⟨hx, hz, -, -⟩ :=
    Player.update_zero_input sq wx wz delta s hl hf hb hlf hr
  have hq0 : 0 < 1 - 8 * delta := by linarith
  have hq1 : 1 - 8 * delta < 1 := by linarith
  have hq2 : (1 - 8 * delta) ^ 2 < 1 := by nlinarith
  refine ⟨?_, ?_, ?_, ?_, ?_, ?_⟩
  · intro hne
    have hsum : 0 < s.velX ^ 2 + s.velZ ^ 2 := by
      rcases hne with h | h
      · have h2 : 0 < s.velX ^ 2 := by positivity
        nlinarith [sq_nonneg s.velZ]
      · have h2 : 0 < s.velZ ^ 2 := by positivity
        nlinarith [sq_nonneg s.velX]
    rw [hx, hz]
    nlinarith [sq_nonneg s.velX, sq_nonneg s.velZ]
  · intro h; rw [hx]; exact mul_pos h hq0
  · intro h; rw [hx]; exact mul_neg_of_neg_of_pos h hq0
  · intro h; rw [hz]; exact mul_pos h hq0
  · intro h; rw [hz]; exact mul_neg_of_neg_of_pos h hq0
  · intro eps heps
    by_cases hS : s.velX ^ 2 + s.velZ ^ 2 = 0
    · refine ⟨0, ?_⟩
      simp only [Player.updateIter]
      rw [hS]
      positivity
    · have hSpos : 0 < s.velX ^ 2 + s.velZ ^ 2 := by
        rcases lt_or_eq_of_le (by positivity :
          (0 : ℚ) ≤ s.velX ^ 2 + s.velZ ^ 2) with h | h
        · exact h
        · exact absurd h.symm hS
      obtain ⟨n, hn⟩ := exists_pow_lt_of_lt_one
        (div_pos (pow_pos heps 2) hSpos) hq2
      refine ⟨n, ?_⟩
      obtain ⟨hxn, hzn⟩ :=
        Player.updateIter_zero_input sq wx wz delta n s hl hf hb hlf hr
      rw [hxn, hzn]
      have hlt : ((1 - 8 * delta) ^ 2) ^ n * (s.velX ^ 2 + s.velZ ^ 2) <
          eps ^ 2 := (lt_div_iff hSpos).mp hn
      have hpow : ((1 - 8 * delta) ^ n) ^ 2 = ((1 - 8 * delta) ^ 2) ^ n := by
        rw [← pow_mul, ← pow_mul, Nat.mul_comm]
      calc (s.velX * (1 - 8 * delta) ^ n) ^ 2 +
            (s.velZ * (1 - 8 * delta) ^ n) ^ 2
          = ((1 - 8 * delta) ^ n) ^ 2 * (s.velX ^ 2 + s.velZ ^ 2) := by ring
        _ = ((1 - 8 * delta) ^ 2) ^ n * (s.velX ^ 2 + s.velZ ^ 2) := by
            rw [hpow]
        _ < eps ^ 2 := hlt

/-- Claim C4 (witness): the amended friction decay applied to the concrete
coasting state with velocity (5, 0) and tick delta 1/100. -/
theorem Player.friction_decay_witness :
    ((Player.coastState.velX ≠ 0 ∨ Player.coastState.velZ ≠ 0) →
      (Player.update sqZero 1 0 (1/100) Player.coastState).velX ^ 2 +
        (Player.update sqZero 1 0 (1/100) Player.coastState).velZ ^ 2 <
        Player.coastState.velX ^ 2 + Player.coastState.velZ ^ 2) ∧
    (0 < Player.coastState.velX →
      0 < (Player.update sqZero 1 0 (1/100) Player.coastState).velX) ∧
    (Player.coastState.velX < 0 →
      (Player.update sqZero 1 0 (1/100) Player.coastState).velX < 0) ∧
    (0 < Player.coastState.velZ →
      0 < (Player.update sqZero 1 0 (1/100) Player.coastState).velZ) ∧
    (Player.coastState.velZ < 0 →
      (Player.update sqZero 1 0 (1/100) Player.coastState).velZ < 0) ∧
    (∀ eps : ℚ, 0 < eps → ∃ n : ℕ,
      (Player.updateIter sqZero 1 0 (1/100) n Player.coastState).velX ^ 2 +
        (Player.updateIter sqZero 1 0 (1/100) n Player.coastState).velZ ^ 2 <
        eps ^ 2) :=
  Player.friction_decay sqZero 1 0 (1/100) Player.coastState
    rfl rfl rfl rfl rfl rfl rfl (by norm_num) (by norm_num)

/-- Claim C7 (counterexample): a state satisfying every stated hypothesis -
Grounded, horizontal speed 15 (above the 12 threshold), crouch input held,
not already sliding - does NOT enter Sliding, because the trigger
additionally requires the crouching flag to be clear (shift newly pressed):
here shift has been held since an earlier slow tick, so isCrouching is
already true and the tick leaves isSliding false and never arms the
timer. -/
theorem Part003.slide_not_triggered_when_already_crouching :
    Part003.crouchedFast.onGround = true ∧
    Part003.crouchedFast.keys.shift = true ∧
    Part003.crouchedFast.isSliding = false ∧
    Part003.crouchedFast.velX = 15 ∧
    Part003.crouchedFast.velZ = 0 ∧
    (Part003.update sq225 1 0 (1/10) Part003.crouchedFast).isSliding = false ∧
    ¬ (Part003.update sq225 1 0 (1/10) Part003.crouchedFast).slideTimer
        = 1/2 := by
  norm_num [Part003.update, Part003.crouchSlide, Part003.slideTick,
    Part003.frictionStep, Part003.accelStep, Part003.jumpStep,
    Part003.integrateStep, Part003.targetHeightOf, Part003.crouchedFast,
    Part003.shiftKeys, sq225, normalize2, b2q, Part003.clampBoundary]

/-- Claim C7 (amended): slide trigger and expiry in part_003, with zero
movement input on the ticks considered.  Trigger tick (state s): shift newly
pressed (crouching flag still clear) while Grounded with horizontal speed
above 12 and not sliding makes the state enter Sliding; the timer is armed
with the configured 0.5 s and, because the sliding update of the same tick
already decrements it, ends the tick at 0.5 - delta; the velocity receives
the instantaneous boost 18 plus the same-tick slide push 35*delta along the
current horizontal direction and the drastically reduced sliding friction
factor (1 - 0.5*delta) instead of (1 - 7*delta); the resulting horizontal
velocity is a positive multiple of the original, so its direction is
preserved.  Expiry tick (state t): when the timer has at most delta left and
crouch is still held, Sliding becomes false and the standard friction
coefficient 7 is applied to that very tick.  L is the exact value of
Math.sqrt at the squared horizontal speed of s. -/
theorem Part003.slide_trigger_and_expiry
    (sq : ℚ → ℚ) (wx wz delta : ℚ) (s t : Part003.KState) (L : ℚ)
    (hsl : s.isLocked = true) (hsshift : s.keys.shift = true)
    (hsc : s.isCrouching = false) (hsg : s.onGround = true)
    (hss : s.isSliding = false)
    (hsf : s.keys.forward = false) (hsb : s.keys.backward = false)
    (hslf : s.keys.left = false) (hsr : s.keys.right = false)
    (hsj : s.keys.jump = false)
    (hLdef : sq (s.velX * s.velX + s.velZ * s.velZ) = L)
    (hgt : 12 < L)
    (hd0 : 0 < delta) (hdh : delta < 1 / 2)
    (htl : t.isLocked = true) (htshift : t.keys.shift = true)
    (htc : t.isCrouching = true) (htg : t.onGround = true)
    (hts : t.isSliding = true) (htt : t.slideTimer ≤ delta)
    (htf : t.keys.forward = false) (htb : t.keys.backward = false)
    (htlf : t.keys.left = false) (htr : t.keys.right = false)
    (htj : t.keys.jump = false) :
    (Part003.update sq wx wz delta s).isSliding = true ∧
    (Part003.update sq wx wz delta s).slideTimer = 1 / 2 - delta ∧
    (Part003.update sq wx wz delta s).velX =
      (s.velX + s.velX / L * 18 + s.velX / L * (35 * delta)) *
        (1 - 1 / 2 * delta) ∧
    (Part003.update sq wx wz delta s).velZ =
      (s.velZ + s.velZ / L * 18 + s.velZ / L * (35 * delta)) *
        (1 - 1 / 2 * delta) ∧
    (∃ c : ℚ, 0 < c ∧
      (Part003.update sq wx wz delta s).velX = c * s.velX ∧
      (Part003.update sq wx wz delta s).velZ = c * s.velZ) ∧
    (Part003.update sq wx wz delta t).isSliding = false ∧
    (Part003.update sq wx wz delta t).velX = t.velX * (1 - 7 * delta) ∧
    (Part003.update sq wx wz delta t).velZ = t.velZ * (1 - 7 * delta) := by
  have hLpos : 0 < L := by linarith
  have hLne : L ≠ 0 := ne_of_gt hLpos
  have hnorm : normalize2 sq s.velX s.velZ = (s.velX / L, s.velZ / L) := by
    dsimp only [normalize2]
    rw [hLdef, if_neg hLne]
  -- trigger tick: the crouch/slide block arms the slide and applies the
  -- boost of 18 along the normalized horizontal velocity
  have h1 : Part003.crouchSlide sq
      { s with velY := s.velY - 36 * delta, gunVisible := true } =
      { s with velY := s.velY - 36 * delta, gunVisible := true,
               isCrouching := true, isSliding := true, slideTimer := 1 / 2,
               slideDirX := s.velX / L, slideDirZ := s.velZ / L,
               velX := s.velX + s.velX / L * 18,
               velZ := s.velZ + s.velZ / L * 18 } := by
    dsimp only [Part003.crouchSlide]
    rw [if_pos hsshift, if_neg (by simp [hsc]),
      if_pos ⟨hsg, by rw [hLdef]; exact hgt, hss⟩, hnorm]
  -- the sliding update of the same tick already decrements the timer and
  -- adds the 35*delta push
  have h2 : Part003.slideTick delta
      { s with velY := s.velY - 36 * delta, gunVisible := true,
               isCrouching := true, isSliding := true, slideTimer := 1 / 2,
               slideDirX := s.velX / L, slideDirZ := s.velZ / L,
               velX := s.velX + s.velX / L * 18,
               velZ := s.velZ + s.velZ / L * 18 } =
      { s with velY := s.velY - 36 * delta, gunVisible := true,
               isCrouching := true, isSliding := true,
               slideTimer := 1 / 2 - delta,
               slideDirX := s.velX / L, slideDirZ := s.velZ / L,
               velX := s.velX + s.velX / L * 18 + s.velX / L * (35 * delta),
               velZ := s.velZ + s.velZ / L * 18 + s.velZ / L * (35 * delta) } := by
    dsimp only [Part003.slideTick]
    rw [if_pos rfl, if_neg (by linarith : ¬ (1 / 2 - delta ≤ 0))]
  -- sliding friction factor 0.5 instead of 7
  have h3 : Part003.frictionStep delta
      { s with velY := s.velY - 36 * delta, gunVisible := true,
               isCrouching := true, isSliding := true,
               slideTimer := 1 / 2 - delta,
               slideDirX := s.velX / L, slideDirZ := s.velZ / L,
               velX := s.velX + s.velX / L * 18 + s.velX / L * (35 * delta),
               velZ := s.velZ + s.velZ / L * 18 + s.velZ / L * (35 * delta) } =
      { s with velY := s.velY - 36 * delta, gunVisible := true,
               isCrouching := true, isSliding := true,
               slideTimer := 1 / 2 - delta,
               slideDirX := s.velX / L, slideDirZ := s.velZ / L,
               velX := (s.velX + s.velX / L * 18 + s.velX / L * (35 * delta)) *
                       (1 - 1 / 2 * delta),
               velZ := (s.velZ + s.velZ / L * 18 + s.velZ / L * (35 * delta)) *
                       (1 - 1 / 2 * delta) } := by
    dsimp only [Part003.frictionStep]
    rw [if_pos hsg]
    norm_num
  have hchain : Part003.update sq wx wz delta s =
      Part003.integrateStep sq delta (Part003.targetHeightOf s)
      { s with velY := s.velY - 36 * delta, gunVisible := true,
               isCrouching := true, isSliding := true,
               slideTimer := 1 / 2 - delta,
               slideDirX := s.velX / L, slideDirZ := s.velZ / L,
               velX := (s.velX + s.velX / L * 18 + s.velX / L * (35 * delta)) *
                       (1 - 1 / 2 * delta),
               velZ := (s.velZ + s.velZ / L * 18 + s.velZ / L * (35 * delta)) *
                       (1 - 1 / 2 * delta) } := by
    have h4 : Part003.accelStep sq wx wz delta
        { s with velY := s.velY - 36 * delta, gunVisible := true,
                 isCrouching := true, isSliding := true,
                 slideTimer := 1 / 2 - delta,
                 slideDirX := s.velX / L, slideDirZ := s.velZ / L,
                 velX := (s.velX + s.velX / L * 18 + s.velX / L * (35 * delta)) *
                         (1 - 1 / 2 * delta),
                 velZ := (s.velZ + s.velZ / L * 18 + s.velZ / L * (35 * delta)) *
                         (1 - 1 / 2 * delta) } =
        { s with velY := s.velY - 36 * delta, gunVisible := true,
                 isCrouching := true, isSliding := true,
                 slideTimer := 1 / 2 - delta,
                 slideDirX := s.velX / L, slideDirZ := s.velZ / L,
                 velX := (s.velX + s.velX / L * 18 + s.velX / L * (35 * delta)) *
                         (1 - 1 / 2 * delta),
                 velZ := (s.velZ + s.velZ / L * 18 + s.velZ / L * (35 * delta)) *
                         (1 - 1 / 2 * delta) } :=
      Part003.accelStep_zero_input sq wx wz delta _ hsf hsb hslf hsr
    have h5 : Part003.jumpStep
        { s with velY := s.velY - 36 * delta, gunVisible := true,
                 isCrouching := true, isSliding := true,
                 slideTimer := 1 / 2 - delta,
                 slideDirX := s.velX / L, slideDirZ := s.velZ / L,
                 velX := (s.velX + s.velX / L * 18 + s.velX / L * (35 * delta)) *
                         (1 - 1 / 2 * delta),
                 velZ := (s.velZ + s.velZ / L * 18 + s.velZ / L * (35 * delta)) *
                         (1 - 1 / 2 * delta) } =
        { s with velY := s.velY - 36 * delta, gunVisible := true,
                 isCrouching := true, isSliding := true,
                 slideTimer := 1 / 2 - delta,
                 slideDirX := s.velX / L, slideDirZ := s.velZ / L,
                 velX := (s.velX + s.velX / L * 18 + s.velX / L * (35 * delta)) *
                         (1 - 1 / 2 * delta),
                 velZ := (s.velZ + s.velZ / L * 18 + s.velZ / L * (35 * delta)) *
                         (1 - 1 / 2 * delta) } :=
      Part003.jumpStep_no_jump _ hsj
    unfold Part003.update
    rw [if_neg (by simp [hsl]), h1, h2, h3, h4, h5]
  obtain ⟨hkx, hkz, hksl, hkst, -⟩ :=
    Part003.integrateStep_keeps_slide sq delta (Part003.targetHeightOf s)
      { s with velY := s.velY - 36 * delta, gunVisible := true,
               isCrouching := true, isSliding := true,
               slideTimer := 1 / 2 - delta,
               slideDirX := s.velX / L, slideDirZ := s.velZ / L,
               velX := (s.velX + s.velX / L * 18 + s.velX / L * (35 * delta)) *
                       (1 - 1 / 2 * delta),
               velZ := (s.velZ + s.velZ / L * 18 + s.velZ / L * (35 * delta)) *
                       (1 - 1 / 2 * delta) }
  -- expiry tick: crouch already held, so the crouch/slide block is the
  -- identity and the sliding update ends the slide
  have k1 : Part003.crouchSlide sq
      { t with velY := t.velY - 36 * delta, gunVisible := true } =
      { t with velY := t.velY - 36 * delta, gunVisible := true } := by
    dsimp only [Part003.crouchSlide]
    rw [if_pos htshift, if_pos htc]
  have k2 : Part003.slideTick delta
      { t with velY := t.velY - 36 * delta, gunVisible := true } =
      { t with velY := t.velY - 36 * delta, gunVisible := true,
               slideTimer := t.slideTimer - delta, isSliding := false } := by
    dsimp only [Part003.slideTick]
    rw [if_pos hts, if_pos (by linarith : t.slideTimer - delta ≤ 0)]
  have k3 : Part003.frictionStep delta
      { t with velY := t.velY - 36 * delta, gunVisible := true,
               slideTimer := t.slideTimer - delta, isSliding := false } =
      { t with velY := t.velY - 36 * delta, gunVisible := true,
               slideTimer := t.slideTimer - delta, isSliding := false,
               velX := t.velX * (1 - 7 * delta),
               velZ := t.velZ * (1 - 7 * delta) } := by
    dsimp only [Part003.frictionStep]
    rw [if_pos htg]
    norm_num
  have kchain : Part003.update sq wx wz delta t =
      Part003.integrateStep sq delta (Part003.targetHeightOf t)
      { t with velY := t.velY - 36 * delta, gunVisible := true,
               slideTimer := t.slideTimer - delta, isSliding := false,
               velX := t.velX * (1 - 7 * delta),
               velZ := t.velZ * (1 - 7 * delta) } := by
    have k4 : Part003.accelStep sq wx wz delta
        { t with velY := t.velY - 36 * delta, gunVisible := true,
                 slideTimer := t.slideTimer - delta, isSliding := false,
                 velX := t.velX * (1 - 7 * delta),
                 velZ := t.velZ * (1 - 7 * delta) } =
        { t with velY := t.velY - 36 * delta, gunVisible := true,
                 slideTimer := t.slideTimer - delta, isSliding := false,
                 velX := t.velX * (1 - 7 * delta),
                 velZ := t.velZ * (1 - 7 * delta) } :=
      Part003.accelStep_zero_input sq wx wz delta _ htf htb htlf htr
    have k5 : Part003.jumpStep
        { t with velY := t.velY - 36 * delta, gunVisible := true,
                 slideTimer := t.slideTimer - delta, isSliding := false,
                 velX := t.velX * (1 - 7 * delta),
                 velZ := t.velZ * (1 - 7 * delta) } =
        { t with velY := t.velY - 36 * delta, gunVisible := true,
                 slideTimer := t.slideTimer - delta, isSliding := false,
                 velX := t.velX * (1 - 7 * delta),
                 velZ := t.velZ * (1 - 7 * delta) } :=
      Part003.jumpStep_no_jump _ htj
    unfold Part003.update
    rw [if_neg (by simp [htl]), k1, k2, k3, k4, k5]
  obtain ⟨kkx, kkz, kksl, -, -⟩ :=
    Part003.integrateStep_keeps_slide sq delta (Part003.targetHeightOf t)
      { t with velY := t.velY - 36 * delta, gunVisible := true,
               slideTimer := t.slideTimer - delta, isSliding := false,
               velX := t.velX * (1 - 7 * delta),
               velZ := t.velZ * (1 - 7 * delta) }
  refine ⟨?_, ?_, ?_, ?_, ?_, ?_, ?_, ?_⟩
  · rw [hchain, hksl]
  · rw [hchain, hkst]
  · rw [hchain, hkx]
  · rw [hchain, hkz]
  · refine ⟨(1 + 18 / L + 35 * delta / L) * (1 - 1 / 2 * delta), ?_, ?_, ?_⟩
    · have hp1 : 0 < 1 + 18 / L + 35 * delta / L := by positivity
      have hp2 : 0 < 1 - 1 / 2 * delta := by linarith
      exact mul_pos hp1 hp2
    · rw [hchain, hkx]
      field_simp
      ring
    · rw [hchain, hkz]
      field_simp
      ring
  · rw [kchain, kksl]
  · rw [kchain, kkx]
  · rw [kchain, kkz]

/-- Claim C7 (witness): the trigger applied to the concrete slide-start
state with velocity (15, 0) and the expiry applied to the concrete
slide-ending state with velocity (10, 0), both at tick delta 1/10. -/
theorem Part003.slide_trigger_and_expiry_witness :
    (Part003.update sq225 1 0 (1/10) Part003.slideStart).isSliding = true ∧
    (Part003.update sq225 1 0 (1/10) Part003.slideStart).slideTimer =
      1 / 2 - 1/10 ∧
    (Part003.update sq225 1 0 (1/10) Part003.slideStart).velX =
      (Part003.slideStart.velX + Part003.slideStart.velX / 15 * 18 +
        Part003.slideStart.velX / 15 * (35 * (1/10))) * (1 - 1 / 2 * (1/10)) ∧
    (Part003.update sq225 1 0 (1/10) Part003.slideStart).velZ =
      (Part003.slideStart.velZ + Part003.slideStart.velZ / 15 * 18 +
        Part003.slideStart.velZ / 15 * (35 * (1/10))) * (1 - 1 / 2 * (1/10)) ∧
    (∃ c : ℚ, 0 < c ∧
      (Part003.update sq225 1 0 (1/10) Part003.slideStart).velX =
        c * Part003.slideStart.velX ∧
      (Part003.update sq225 1 0 (1/10) Part003.slideStart).velZ =
        c * Part003.slideStart.velZ) ∧
    (Part003.update sq225 1 0 (1/10) Part003.slideEnding).isSliding = false ∧
    (Part003.update sq225 1 0 (1/10) Part003.slideEnding).velX =
      Part003.slideEnding.velX * (1 - 7 * (1/10)) ∧
    (Part003.update sq225 1 0 (1/10) Part003.slideEnding).velZ =
      Part003.slideEnding.velZ * (1 - 7 * (1/10)) :=
  Part003.slide_trigger_and_expiry sq225 1 0 (1/10)
    Part003.slideStart Part003.slideEnding 15
    rfl rfl rfl rfl rfl rfl rfl rfl rfl rfl
    (by norm_num [sq225, Part003.slideStart]) (by norm_num)
    (by norm_num) (by norm_num)
    rfl rfl rfl rfl rfl
    (by norm_num [Part003.slideEnding]) rfl rfl rfl rfl rfl
